import Mathlib

/-!
Verification of `src/tools/api/base.ts` (BasePostmanTool) via a shallow
embedding in Lean.

Conventions of the embedding:
* JavaScript `string | null` / optional values become `Option String`.
* JavaScript truthiness on strings (`!s`, `s || d`) is made explicit:
  `none` and `some ""` are falsy.
* `axios.create(config)` is modelled as building an `AxiosInstance` record
  holding its configuration plus its registered interceptor lists.
* Throwing in the synchronous constructor is modelled with `Except String`
  (a plain `Error` carrying a message), while the async error pipeline
  raises `McpError` values; the two never mix.
* The response interceptor's failure handler is a total function from the
  intercepted axios error to the `McpError` it throws, since every branch
  of the source `switch`/`if` chain throws.
-/

/-- JavaScript `a || d` on an optional string: `none` and the empty string
are falsy and select the default `d`. -/
def jsStrOr (v : Option String) (d : String) : String :=
  match v with
  | none => d
  | some s => if s = "" then d else s

/-- JavaScript truthiness test `!v` for an optional string: true when the
value is `null`/`undefined` or the empty string. -/
def jsStrFalsy (v : Option String) : Bool :=
  match v with
  | none => true
  | some s => s = ""

/-- Options object `PostmanToolOptions` from base.ts: `{baseURL?, acceptHeader?}`. -/
structure PostmanToolOptions where
  baseURL : Option String
  acceptHeader : Option String
deriving DecidableEq, Repr

/-- `https.Agent({ rejectUnauthorized: ... })` from base.ts line 46. -/
structure HttpsAgent where
  rejectUnauthorized : Bool
deriving DecidableEq, Repr

/-- The configuration handed to `axios.create` in base.ts lines 39-49:
base URL, default headers, timeout (milliseconds), https agent. -/
structure AxiosConfig where
  baseURL : String
  headers : List (String × String)
  timeout : Nat
  httpsAgent : HttpsAgent
deriving DecidableEq, Repr

/-- A registered request interceptor of base.ts: the logging hook
(lines 53-56) or the accept-header overwriting hook (lines 60-63). -/
inductive RequestInterceptor where
  | logging
  | acceptHeader (value : String)
deriving DecidableEq, Repr

/-- An axios client instance: its configuration (defaults) and the lists of
request- and response-interceptors registered on it.  Registering an
interceptor appends to a list and leaves `config` untouched. -/
structure AxiosInstance where
  config : AxiosConfig
  requestInterceptors : List RequestInterceptor
  responseInterceptors : Nat
deriving DecidableEq, Repr

/-- `axios.create(cfg)`: a fresh instance with no interceptors registered. -/
def axiosCreate (cfg : AxiosConfig) : AxiosInstance :=
  { config := cfg, requestInterceptors := [], responseInterceptors := 0 }

/-- The error codes of the MCP SDK (`ErrorCode` from
`@modelcontextprotocol/sdk/types.js`; the SDK is external to this
repository).  Only `invalidRequest` and `internalError` are used by base.ts. -/
inductive ErrorCode where
  | connectionClosed
  | requestTimeout
  | parseError
  | invalidRequest
  | methodNotFound
  | invalidParams
  | internalError
deriving DecidableEq, Repr

/-- `McpError` of the MCP SDK: an error code plus a human-readable message. -/
structure McpError where
  code : ErrorCode
  message : String
deriving DecidableEq, Repr

/-- The nested `{ error: { message: ... } }` shape read from the response
body by `error.response.data?.error?.message` in base.ts. -/
structure ResponseErrorField where
  message : Option String
deriving DecidableEq, Repr

/-- Response body (`data`) as far as base.ts inspects it. -/
structure ResponseData where
  error : Option ResponseErrorField
deriving DecidableEq, Repr

/-- The server response attached to an axios error: HTTP status code and
(possibly absent) parsed body. -/
structure AxiosResponse where
  status : Nat
  data : Option ResponseData
deriving DecidableEq, Repr

/-- The axios error object as inspected by the response interceptor:
`error.response` (present or not), `error.request` (truthy when the request
was dispatched), and `error.message`. -/
structure AxiosError where
  response : Option AxiosResponse
  request : Bool
  message : String
deriving DecidableEq, Repr

/-- The optional chain `resp.data?.error?.message` from base.ts. -/
def bodyErrorMessage (resp : AxiosResponse) : Option String :=
  resp.data.bind (fun d => d.error.bind (fun e => e.message))

/-- The failure branch of the response interceptor (base.ts lines 69-121),
as the `McpError` it throws.  Every branch of the source throws, so the
handler is a total function into `McpError`. -/
def translateError (e : AxiosError) : McpError :=
  match e.response with
  | some resp =>
    if resp.status = 400 then
      ⟨ErrorCode.invalidRequest,
       jsStrOr (bodyErrorMessage resp) "Invalid request parameters"⟩
    else if resp.status = 401 then
      ⟨ErrorCode.invalidRequest, "Unauthorized: Invalid or missing API key"⟩
    else if resp.status = 403 then
      ⟨ErrorCode.invalidRequest,
       "Forbidden: Insufficient permissions or feature unavailable"⟩
    else if resp.status = 404 then
      ⟨ErrorCode.invalidRequest, "Resource not found"⟩
    else if resp.status = 422 then
      ⟨ErrorCode.invalidRequest,
       jsStrOr (bodyErrorMessage resp) "Invalid request parameters"⟩
    else if resp.status = 429 then
      ⟨ErrorCode.invalidRequest, "Rate limit exceeded"⟩
    else
      ⟨ErrorCode.internalError,
       jsStrOr (bodyErrorMessage resp) "Internal server error"⟩
  | none =>
    if e.request then
      ⟨ErrorCode.internalError, "No response received from Postman API"⟩
    else
      ⟨ErrorCode.internalError, "Error making request: " ++ e.message⟩

/-- Outcome of one pass through the response interceptor: the response is
passed through unchanged, an `McpError` is raised, or the raw transport
error is re-raised. -/
inductive InterceptOutcome where
  | pass (r : AxiosResponse)
  | raiseMcp (e : McpError)
  | raiseRaw (e : AxiosError)
deriving DecidableEq, Repr

/-- Success handler of the response interceptor (base.ts line 68):
`response => response`. -/
def responseOnFulfilled (r : AxiosResponse) : InterceptOutcome :=
  InterceptOutcome.pass r

/-- Failure handler of the response interceptor (base.ts lines 69-121):
always raises the translated `McpError`. -/
def responseOnRejected (e : AxiosError) : InterceptOutcome :=
  InterceptOutcome.raiseMcp (translateError e)

/-- A constructed `BasePostmanTool`: it holds its (protected) axios client. -/
structure BasePostmanTool where
  client : AxiosInstance
deriving DecidableEq, Repr

/-- Interceptor registration performed by the constructor on `this.client`
(base.ts lines 52-122): the logging request hook, the accept-header request
hook when `options.acceptHeader` is truthy, and the response interceptor. -/
def registerInterceptors (c : AxiosInstance) (options : PostmanToolOptions) :
    AxiosInstance :=
  let c1 := { c with
    requestInterceptors := c.requestInterceptors ++ [RequestInterceptor.logging] }
  let c2 :=
    match options.acceptHeader with
    | some h =>
      if h = "" then c1
      else { c1 with
        requestInterceptors := c1.requestInterceptors ++ [RequestInterceptor.acceptHeader h] }
    | none => c1
  { c2 with responseInterceptors := c2.responseInterceptors + 1 }

/-- The fixed default origin of base.ts line 29. -/
def defaultBaseURL : String := "https://api.getpostman.com"

/-- The `BasePostmanTool` constructor (base.ts lines 24-123).  The
synchronous `throw new Error(...)` on a missing API key becomes an
`Except.error` carrying the message; on success the constructed tool is
returned. -/
def constructBasePostmanTool (apiKey : Option String)
    (options : PostmanToolOptions) (existingClient : Option AxiosInstance) :
    Except String BasePostmanTool :=
  let baseURL := jsStrOr options.baseURL defaultBaseURL
  match existingClient with
  | some c => Except.ok ⟨registerInterceptors c options⟩
  | none =>
    if jsStrFalsy apiKey then
      Except.error "API key is required when not providing an existing client"
    else
      match apiKey with
      | some key =>
        Except.ok ⟨registerInterceptors
          (axiosCreate
            { baseURL := baseURL
              headers := [("X-Api-Key", key), ("Content-Type", "application/json")]
              timeout := 30000
              httpsAgent := ⟨false⟩ }) options⟩
      | none =>
        Except.error "API key is required when not providing an existing client"

/-- Modelled from the spec: `ToolDefinition` lives in `types/index.js`,
which is not part of this excerpt; per the spec it is "a name (string) plus
arbitrary associated metadata (shape defined externally)", so the metadata
is a type parameter. -/
structure ToolDefinition (μ : Type) where
  name : String
  meta : μ

/-- Modelled from the spec: `ToolResource` lives in `types/index.js`, which
is not part of this excerpt; per the spec it is "an opaque descriptor
identified by a URI string, shape defined externally". -/
structure ToolResource where
  uri : String
deriving DecidableEq, Repr

/-- A JavaScript-object-style mapping: assigning a key overwrites any
earlier binding of that key. -/
def mappingInsert {α : Type} (m : String → Option α) (k : String) (v : α) :
    String → Option α :=
  fun q => if q = k then some v else m q

/-- `getToolMappings` (base.ts lines 130-139): fold the definitions in
order, assigning `mappings[tool.name] = this` for each.  `self` stands for
`this`; the list stands for the result of `this.getToolDefinitions()`. -/
def getToolMappings {μ α : Type} (toolDefinitions : List (ToolDefinition μ))
    (self : α) : String → Option α :=
  toolDefinitions.foldl (fun m tool => mappingInsert m tool.name self)
    (fun _ => none)

/-- Default `listToolResources` (base.ts lines 153-155): resolves to `[]`. -/
def listToolResourcesDefault : List ToolResource := []

/-- Default `getToolResourceDetails` (base.ts lines 162-167): always rejects
with an invalid-request `McpError` naming the URI. -/
def getToolResourceDetailsDefault (resourceUri : String) :
    Except McpError ToolResource :=
  Except.error ⟨ErrorCode.invalidRequest,
    "Resource " ++ resourceUri ++ " cannot be handled by this tool"⟩

/-- `canHandleResource` (base.ts lines 172-179): call the (overridable)
`getToolResourceDetails`, return `true` on success, `false` on any error.
`details` stands for the possibly-overridden hook; the error type is
arbitrary since the `catch` is untyped. -/
def canHandleResource {ε ρ : Type} (details : String → Except ε ρ)
    (resourceUri : String) : Bool :=
  match details resourceUri with
  | Except.ok _ => true
  | Except.error _ => false

/-- A value surfaced as an error by one of this unit's operations: either a
plain JS `Error` (carrying just a message) or a framework `McpError`. -/
inductive SurfacedError where
  | plain (message : String)
  | mcp (e : McpError)
deriving DecidableEq, Repr

/-- A surfaced error carries one of the two framework kinds exactly when it
is an `McpError` whose code is invalid-request or internal-error. -/
def carriesFrameworkKind (err : SurfacedError) : Prop :=
  ∃ m, err = SurfacedError.mcp m ∧
    (m.code = ErrorCode.invalidRequest ∨ m.code = ErrorCode.internalError)

/-- Base `getToolDefinitions` (base.ts lines 145-147): the un-overridden
implementation throws a plain `Error` — not an `McpError` — to force
derived classes to override it. -/
def getToolDefinitionsBase (μ : Type) :
    Except SurfacedError (List (ToolDefinition μ)) :=
  Except.error (SurfacedError.plain
    "getToolDefinitions() must be implemented by derived class")

/-! ### Helper lemmas -/

lemma jsStrOr_some_ne (s d : String) (h : s ≠ "") : jsStrOr (some s) d = s := by
  simp [jsStrOr, h]

lemma jsStrOr_none (d : String) : jsStrOr none d = d := rfl

lemma jsStrOr_some_empty (d : String) : jsStrOr (some "") d = d := by
  simp [jsStrOr]

lemma registerInterceptors_config (c : AxiosInstance) (o : PostmanToolOptions) :
    (registerInterceptors c o).config = c.config := by
  unfold registerInterceptors
  rcases o.acceptHeader with _ | h
  · rfl
  · by_cases hh : h = "" <;> simp [hh]

/-- `translateError` on a failure carrying a response, written out as a
case analysis on the status code. -/
lemma translateError_of_response (e : AxiosError) (resp : AxiosResponse)
    (h : e.response = some resp) :
    translateError e =
      if resp.status = 400 then
        ⟨ErrorCode.invalidRequest,
         jsStrOr (bodyErrorMessage resp) "Invalid request parameters"⟩
      else if resp.status = 401 then
        ⟨ErrorCode.invalidRequest, "Unauthorized: Invalid or missing API key"⟩
      else if resp.status = 403 then
        ⟨ErrorCode.invalidRequest,
         "Forbidden: Insufficient permissions or feature unavailable"⟩
      else if resp.status = 404 then
        ⟨ErrorCode.invalidRequest, "Resource not found"⟩
      else if resp.status = 422 then
        ⟨ErrorCode.invalidRequest,
         jsStrOr (bodyErrorMessage resp) "Invalid request parameters"⟩
      else if resp.status = 429 then
        ⟨ErrorCode.invalidRequest, "Rate limit exceeded"⟩
      else
        ⟨ErrorCode.internalError,
         jsStrOr (bodyErrorMessage resp) "Internal server error"⟩ := by
  unfold translateError
  rw [h]

/-! ### Claim theorems -/

/-- C1.  For every intercepted failure carrying a server response with HTTP
status in `{400, 401, 403, 404, 422, 429}`, the interceptor raises an
invalid-request error; for 400 and 422 the message is the response body's
nested error message field when present (truthy), else the fixed fallback
"Invalid request parameters"; for 401, 403, 404, 429 it is the documented
fixed message for that status. -/
theorem interceptor_client_statuses_invalid_request
    (e : AxiosError) (resp : AxiosResponse)
    (hresp : e.response = some resp)
    (hs : resp.status = 400 ∨ resp.status = 401 ∨ resp.status = 403 ∨
          resp.status = 404 ∨ resp.status = 422 ∨ resp.status = 429) :
    (translateError e).code = ErrorCode.invalidRequest ∧
    ((resp.status = 400 ∨ resp.status = 422) →
      (∀ m, bodyErrorMessage resp = some m → m ≠ "" →
         (translateError e).message = m) ∧
      ((bodyErrorMessage resp = none ∨ bodyErrorMessage resp = some "") →
         (translateError e).message = "Invalid request parameters")) ∧
    (resp.status = 401 →
       (translateError e).message = "Unauthorized: Invalid or missing API key") ∧
    (resp.status = 403 →
       (translateError e).message =
         "Forbidden: Insufficient permissions or feature unavailable") ∧
    (resp.status = 404 → (translateError e).message = "Resource not found") ∧
    (resp.status = 429 → (translateError e).message = "Rate limit exceeded") := by
  rw [translateError_of_response e resp hresp]
  rcases hs with h | h | h | h | h | h <;>
    simp only [h] <;> norm_num <;>
    constructor
  · intro m hm hmne
    rw [hm, jsStrOr_some_ne m _ hmne]
  · rintro (hb | hb) <;> rw [hb] <;> simp [jsStrOr]
  · intro m hm hmne
    rw [hm, jsStrOr_some_ne m _ hmne]
  · rintro (hb | hb) <;> rw [hb] <;> simp [jsStrOr]

/-- Witness for C1: a concrete 400 failure with a body message. -/
theorem interceptor_client_statuses_invalid_request_witness :
    (translateError ⟨some ⟨400, some ⟨some ⟨some "boom"⟩⟩⟩, true, ""⟩).code =
      ErrorCode.invalidRequest ∧
    (translateError ⟨some ⟨400, some ⟨some ⟨some "boom"⟩⟩⟩, true, ""⟩).message =
      "boom" := by
  have h := interceptor_client_statuses_invalid_request
    ⟨some ⟨400, some ⟨some ⟨some "boom"⟩⟩⟩, true, ""⟩
    ⟨400, some ⟨some ⟨some "boom"⟩⟩⟩ rfl (Or.inl rfl)
  exact ⟨h.1, (h.2.1 (Or.inl rfl)).1 "boom" rfl (by decide)⟩

/-- C2.  Every intercepted failure not mapped to invalid-request yields an
internal error: a response with a status outside `{400,401,403,404,422,429}`
gives the body's nested error message when present (truthy), else
"Internal server error"; a request with no response gives the fixed
"No response received from Postman API"; neither request nor response gives
a message interpolating the underlying failure's own message text. -/
theorem interceptor_other_failures_internal_error (e : AxiosError) :
    (∀ resp, e.response = some resp →
       resp.status ≠ 400 → resp.status ≠ 401 → resp.status ≠ 403 →
       resp.status ≠ 404 → resp.status ≠ 422 → resp.status ≠ 429 →
       (translateError e).code = ErrorCode.internalError ∧
       (∀ m, bodyErrorMessage resp = some m → m ≠ "" →
          (translateError e).message = m) ∧
       ((bodyErrorMessage resp = none ∨ bodyErrorMessage resp = some "") →
          (translateError e).message = "Internal server error")) ∧
    (e.response = none → e.request = true →
       translateError e =
         ⟨ErrorCode.internalError, "No response received from Postman API"⟩) ∧
    (e.response = none → e.request = false →
       translateError e =
         ⟨ErrorCode.internalError, "Error making request: " ++ e.message⟩) := by
  refine ⟨?_, ?_, ?_⟩
  · intro resp hresp h400 h401 h403 h404 h422 h429
    rw [translateError_of_response e resp hresp]
    rw [if_neg h400, if_neg h401, if_neg h403, if_neg h404, if_neg h422,
      if_neg h429]
    refine ⟨rfl, ?_, ?_⟩
    · intro m hm hmne
      rw [hm, jsStrOr_some_ne m _ hmne]
    · rintro (hb | hb) <;> rw [hb] <;> simp [jsStrOr]
  · intro hresp hreq
    unfold translateError
    rw [hresp, hreq]
    rfl
  · intro hresp hreq
    unfold translateError
    rw [hresp, hreq]
    rfl

/-- Witness for C2: a concrete 500 failure without a body message, and a
concrete response-less failure with a dispatched request. -/
theorem interceptor_other_failures_internal_error_witness :
    translateError ⟨some ⟨500, none⟩, true, ""⟩ =
      ⟨ErrorCode.internalError, "Internal server error"⟩ ∧
    translateError ⟨none, true, "boom"⟩ =
      ⟨ErrorCode.internalError, "No response received from Postman API"⟩ := by
  constructor
  · have h := (interceptor_other_failures_internal_error
      ⟨some ⟨500, none⟩, true, ""⟩).1 ⟨500, none⟩ rfl
      (by decide) (by decide) (by decide) (by decide) (by decide) (by decide)
    have hmsg := h.2.2 (Or.inl rfl)
    rcases htr : translateError ⟨some ⟨500, none⟩, true, ""⟩ with ⟨c, m⟩
    rw [htr] at h hmsg
    simp only at h hmsg
    rw [h.1, hmsg]
  · exact (interceptor_other_failures_internal_error ⟨none, true, "boom"⟩).2.1
      rfl rfl

/-- C3.  Constructing with a pre-existing client reuses that client: the
resulting tool's client carries exactly the supplied client's configuration
(base URL, headers, timeout, agent all unchanged), whatever the API key and
options are. -/
theorem existing_client_config_verbatim (apiKey : Option String)
    (options : PostmanToolOptions) (c : AxiosInstance) :
    ∃ t, constructBasePostmanTool apiKey options (some c) = Except.ok t ∧
      t.client.config = c.config ∧
      t.client.config.baseURL = c.config.baseURL ∧
      t.client.config.headers = c.config.headers := by
  refine ⟨⟨registerInterceptors c options⟩, rfl, ?_, ?_, ?_⟩ <;>
    rw [registerInterceptors_config]

/-- C4.  Constructing with no API key and no pre-existing client fails
synchronously with the configuration error (an `Except.error` carrying a
plain `Error` message, not an `McpError` of the async pipeline), so no
client is ever produced. -/
theorem missing_api_key_fails_fast (options : PostmanToolOptions) :
    constructBasePostmanTool none options none =
      Except.error "API key is required when not providing an existing client" := by
  rfl

/-- C5, amended.  Every error surfaced through the HTTP response
interceptor carries one of the two framework kinds: the success handler
passes every response through unchanged, and the failure handler always
raises an `McpError` whose code is invalid-request or internal-error,
never returns a normal value, and never re-raises the raw transport error.
(Not every operation of the unit obeys the two-kind taxonomy: the base
`getToolDefinitions` throws a plain `Error`, see the counterexample.) -/
theorem interceptor_two_error_kinds (e : AxiosError) (r : AxiosResponse) :
    responseOnFulfilled r = InterceptOutcome.pass r ∧
    (∃ m, responseOnRejected e = InterceptOutcome.raiseMcp m ∧
       (m.code = ErrorCode.invalidRequest ∨ m.code = ErrorCode.internalError)) ∧
    (∀ r2, responseOnRejected e ≠ InterceptOutcome.pass r2) ∧
    (∀ e2, responseOnRejected e ≠ InterceptOutcome.raiseRaw e2) := by
  refine ⟨rfl, ⟨translateError e, rfl, ?_⟩, ?_, ?_⟩
  · unfold translateError
    rcases e.response with _ | resp
    · by_cases hr : e.request <;> simp [hr]
    · by_cases h400 : resp.status = 400
      · simp [h400]
      by_cases h401 : resp.status = 401
      · simp [h400, h401]
      by_cases h403 : resp.status = 403
      · simp [h400, h401, h403]
      by_cases h404 : resp.status = 404
      · simp [h400, h401, h403, h404]
      by_cases h422 : resp.status = 422
      · simp [h400, h401, h403, h404, h422]
      by_cases h429 : resp.status = 429 <;>
        simp [h400, h401, h403, h404, h422, h429]
  · intro r2 h
    simp [responseOnRejected] at h
  · intro e2 h
    simp [responseOnRejected] at h

/-- Witness for C5 at a concrete error and response. -/
theorem interceptor_two_error_kinds_witness :
    responseOnFulfilled ⟨200, none⟩ = InterceptOutcome.pass ⟨200, none⟩ ∧
    (∃ m, responseOnRejected ⟨some ⟨418, none⟩, true, ""⟩ =
        InterceptOutcome.raiseMcp m ∧
      (m.code = ErrorCode.invalidRequest ∨ m.code = ErrorCode.internalError)) :=
  ⟨(interceptor_two_error_kinds ⟨some ⟨418, none⟩, true, ""⟩ ⟨200, none⟩).1,
   (interceptor_two_error_kinds ⟨some ⟨418, none⟩, true, ""⟩ ⟨200, none⟩).2.1⟩

/-- Counterexample to C5 as stated: the base `getToolDefinitions` operation
of this unit surfaces a plain `Error` ("getToolDefinitions() must be
implemented by derived class") that carries neither of the two framework
kinds, so not every error surfaced by the unit's operations does. -/
theorem surfaced_error_without_framework_kind_cex :
    getToolDefinitionsBase Unit =
      Except.error (SurfacedError.plain
        "getToolDefinitions() must be implemented by derived class") ∧
    ¬ carriesFrameworkKind (SurfacedError.plain
        "getToolDefinitions() must be implemented by derived class") := by
  refine ⟨rfl, ?_⟩
  rintro ⟨m, hm, _⟩
  cases hm

/-- Lookup after folding tool definitions into an arbitrary starting
mapping: any listed name maps to `self`, any other name keeps its old
binding. -/
lemma toolMappings_foldl {μ α : Type} (defs : List (ToolDefinition μ))
    (self : α) (m : String → Option α) (name : String) :
    List.foldl (fun acc tool => mappingInsert acc tool.name self) m defs name =
      if name ∈ defs.map ToolDefinition.name then some self else m name := by
  induction defs generalizing m with
  | nil => simp
  | cons d tl ih =>
    rw [List.foldl_cons, ih]
    by_cases heq : name = d.name
    · by_cases hmem : name ∈ tl.map ToolDefinition.name <;>
        simp [heq, hmem, mappingInsert]
    · by_cases hmem : name ∈ tl.map ToolDefinition.name <;>
        simp [heq, hmem, mappingInsert]

/-- C6.  `getToolMappings` associates each returned definition's name with
`this` instance and binds nothing else; assignment is last-write-wins, so a
definition appended at the end overwrites any earlier binding of its name
(all bindings carry the same instance). -/
theorem getToolMappings_assoc {μ α : Type} (defs : List (ToolDefinition μ))
    (self : α) (name : String) :
    (getToolMappings defs self name =
       if name ∈ defs.map ToolDefinition.name then some self else none) ∧
    (∀ d : ToolDefinition μ,
       getToolMappings (defs ++ [d]) self name =
         mappingInsert (getToolMappings defs self) d.name self name) := by
  constructor
  · exact toolMappings_foldl defs self (fun _ => none) name
  · intro d
    unfold getToolMappings
    rw [List.foldl_append]
    rfl

/-- C7.  `canHandleResource` returns `true` exactly when the (overridable)
`getToolResourceDetails` succeeds and `false` exactly when it fails,
whatever the error is; being a total function into `Bool`, it never raises. -/
theorem canHandleResource_spec {ε ρ : Type} (details : String → Except ε ρ)
    (uri : String) :
    (canHandleResource details uri = true ↔ ∃ r, details uri = Except.ok r) ∧
    (canHandleResource details uri = false ↔
       ∃ err, details uri = Except.error err) := by
  rcases h : details uri with err | r <;> simp [canHandleResource, h]

/-- C8.  With the hooks not overridden: `listToolResources` returns the
empty sequence, `getToolResourceDetails` fails with an invalid-request
error whose message names the URI, and `canHandleResource` is therefore
`false` on every URI. -/
theorem default_resource_hooks :
    listToolResourcesDefault = ([] : List ToolResource) ∧
    (∀ uri, getToolResourceDetailsDefault uri =
       Except.error ⟨ErrorCode.invalidRequest,
         "Resource " ++ uri ++ " cannot be handled by this tool"⟩) ∧
    (∀ uri, ∃ err pre post,
       getToolResourceDetailsDefault uri = Except.error err ∧
       err.code = ErrorCode.invalidRequest ∧
       err.message = pre ++ uri ++ post) ∧
    (∀ uri, canHandleResource getToolResourceDetailsDefault uri = false) := by
  refine ⟨rfl, fun uri => rfl, fun uri =>
    ⟨_, "Resource ", " cannot be handled by this tool", rfl, rfl, rfl⟩,
    fun uri => rfl⟩

/-- C9.  Constructing with a (truthy) API key and no pre-existing client
builds a client whose configuration has: the options base URL when given
and truthy, else the fixed origin; the API-key authentication header and
the JSON content-type header; a 30000 ms timeout; and TLS certificate
verification disabled. -/
theorem new_client_configuration (key : String) (options : PostmanToolOptions)
    (hkey : key ≠ "") :
    ∃ t, constructBasePostmanTool (some key) options none = Except.ok t ∧
      (∀ b, options.baseURL = some b → b ≠ "" →
         t.client.config.baseURL = b) ∧
      (options.baseURL = none →
         t.client.config.baseURL = "https://api.getpostman.com") ∧
      t.client.config.headers =
        [("X-Api-Key", key), ("Content-Type", "application/json")] ∧
      t.client.config.timeout = 30000 ∧
      t.client.config.httpsAgent.rejectUnauthorized = false := by
  refine ⟨⟨registerInterceptors (axiosCreate
    { baseURL := jsStrOr options.baseURL defaultBaseURL
      headers := [("X-Api-Key", key), ("Content-Type", "application/json")]
      timeout := 30000
      httpsAgent := ⟨false⟩ }) options⟩, ?_, ?_, ?_, ?_, ?_, ?_⟩
  · simp [constructBasePostmanTool, jsStrFalsy, hkey]
  · intro b hb hbne
    rw [registerInterceptors_config]
    simp [axiosCreate, hb, jsStrOr_some_ne b _ hbne]
  · intro hb
    rw [registerInterceptors_config]
    simp [axiosCreate, hb, jsStrOr, defaultBaseURL]
  · rw [registerInterceptors_config]
    rfl
  · rw [registerInterceptors_config]
    rfl
  · rw [registerInterceptors_config]
    rfl

/-- Witness for C9: a concrete key with no base-URL override. -/
theorem new_client_configuration_witness :
    ∃ t, constructBasePostmanTool (some "k") ⟨none, none⟩ none = Except.ok t ∧
      t.client.config.baseURL = "https://api.getpostman.com" ∧
      t.client.config.headers =
        [("X-Api-Key", "k"), ("Content-Type", "application/json")] ∧
      t.client.config.timeout = 30000 ∧
      t.client.config.httpsAgent.rejectUnauthorized = false := by
  obtain ⟨t, h1, _, h3, h4, h5, h6⟩ :=
    new_client_configuration "k" ⟨none, none⟩ (by decide)
  exact ⟨t, h1, h3 rfl, h4, h5, h6⟩

/-- C10.  The constructor treats a falsy API key like a missing one: the
empty string fails with the same configuration error as `null`; likewise an
empty-string `baseURL` option is falsy and is replaced by the default
origin. -/
theorem empty_string_key_and_baseURL_are_falsy (options : PostmanToolOptions) :
    constructBasePostmanTool (some "") options none =
      Except.error "API key is required when not providing an existing client" ∧
    constructBasePostmanTool (some "") options none =
      constructBasePostmanTool none options none ∧
    (∀ key accept, key ≠ "" →
       ∃ t, constructBasePostmanTool (some key) ⟨some "", accept⟩ none =
           Except.ok t ∧
         t.client.config.baseURL = "https://api.getpostman.com") := by
  refine ⟨rfl, rfl, ?_⟩
  intro key accept hkey
  refine ⟨⟨registerInterceptors (axiosCreate
    { baseURL := jsStrOr (some "") defaultBaseURL
      headers := [("X-Api-Key", key), ("Content-Type", "application/json")]
      timeout := 30000
      httpsAgent := ⟨false⟩ }) ⟨some "", accept⟩⟩, ?_, ?_⟩
  · simp [constructBasePostmanTool, jsStrFalsy, hkey]
  · rw [registerInterceptors_config]
    simp [axiosCreate, jsStrOr, defaultBaseURL]

/-- Witness for C10: empty key rejected; empty base URL replaced by the
default origin for a concrete truthy key. -/
theorem empty_string_key_and_baseURL_are_falsy_witness :
    constructBasePostmanTool (some "") ⟨none, none⟩ none =
      Except.error "API key is required when not providing an existing client" ∧
    ∃ t, constructBasePostmanTool (some "k") ⟨some "", none⟩ none =
        Except.ok t ∧
      t.client.config.baseURL = "https://api.getpostman.com" :=
  ⟨(empty_string_key_and_baseURL_are_falsy ⟨none, none⟩).1,
   (empty_string_key_and_baseURL_are_falsy ⟨none, none⟩).2.2 "k" none
     (by decide)⟩
